import Mathlib

/-!
Shallow embedding of the Cleanvoice client (`audio_processor.py` and
`interactive_audio_processor.py`) and proofs about its request-building,
validation, upload-handshake, polling and file-discovery behaviour.

Python dictionaries are embedded as association lists where the RIGHTMOST
binding of a key wins, so that the dict-spread expression
`\x7b**defaults, **additional\x7d` is embedded as `defaults ++ additional`.
Network effects are embedded by their observable client-side behaviour: a
request-building method returns the payload it would send, a fallible
method returns `Except`, and the polling loop consumes a status oracle
indexed by query number, with time advancing only in `time.sleep`.
-/

/-- A JSON-ish configuration value: the client only ever puts booleans,
integers and strings into a config dictionary. -/
inductive Value where
  | vBool (b : Bool)
  | vInt (n : Int)
  | vStr (s : String)
deriving DecidableEq, Repr

/-- A Python configuration dictionary, as an association list in insertion
order; the rightmost binding of a key wins on lookup. -/
abbrev Config := List (String × Value)

/-- Dictionary lookup with rightmost-binding-wins semantics, matching the
result of Python dict construction with repeated keys. -/
def cfgGet : Config → String → Option Value
  | [], _ => none
  | (k, v) :: rest, key =>
    match cfgGet rest key with
    | some w => some w
    | none => if k = key then some v else none

/-- The `files` argument of `process_audio`: a single URL string or a list
of URL strings (`Union[str, List[str]]` in the source). -/
inductive FilesArg where
  | single (url : String)
  | many (urls : List String)
deriving DecidableEq, Repr

/-- `files if isinstance(files, list) else [files]` (audio_processor.py:36). -/
def file_array : FilesArg → List String
  | .many l => l
  | .single s => [s]

/-- The body sent to `POST /edits`: `\x7binput: \x7bfiles, config\x7d\x7d`
(audio_processor.py:38-43), keeping the two components. -/
structure Payload where
  files : List String
  config : Config
deriving DecidableEq, Repr

/-- `AudioProcessor.process_audio` (audio_processor.py:21-52), embedded by
the payload it posts: `config = \x7b\x7d` when omitted, a single file is
wrapped into a one-element list. -/
def process_audio (files : FilesArg) (config : Option Config) : Payload :=
  let cfg := match config with
    | none => []
    | some c => c
  { files := file_array files, config := cfg }

/-- Local validation failures (`raise ValueError(...)` in the source; the
spec calls these `InvalidParameter`). -/
inductive ApiError where
  | invalidParameter (msg : String)
deriving DecidableEq, Repr

/-- The fixed-default operations of `AudioProcessor` that perform no local
validation: each one builds `\x7bdefaults..., **additional_config\x7d` and
calls `process_audio` (audio_processor.py:57-179, 221-252, 358-399). -/
inductive Op where
  | removeSilences
  | removeStutters
  | removeFillers
  | removeMouthSounds
  | removeHesitations
  | muteSegments
  | denoiseAudio
  | preserveMusic
  | reduceBreathSounds
  | normalizeAudio
  | applyAutoeq
  | enhanceWithAi
  | transcribeAudio
  | summarizeAudio
  | createSocialContent
  | enhanceAudioComprehensive
deriving DecidableEq, Repr

/-- Each operation's fixed default flags, in the source's literal order,
with source-default parameter values (`mute_lufs=-80`, `keep_music=False`,
`target_lufs=-16`; audio_processor.py:57-179, 221-252, 372-397). -/
def opDefaults : Op → Config
  | .removeSilences => [("long_silences", .vBool true)]
  | .removeStutters => [("stutters", .vBool true)]
  | .removeFillers => [("fillers", .vBool true)]
  | .removeMouthSounds => [("mouth_sounds", .vBool true)]
  | .removeHesitations => [("hesitations", .vBool true)]
  | .muteSegments => [("muted", .vBool true), ("mute_lufs", .vInt (-80))]
  | .denoiseAudio => [("remove_noise", .vBool true), ("keep_music", .vBool false)]
  | .preserveMusic => [("keep_music", .vBool true)]
  | .reduceBreathSounds => [("breath", .vBool true), ("mute_lufs", .vInt (-80))]
  | .normalizeAudio => [("normalize", .vBool true), ("target_lufs", .vInt (-16))]
  | .applyAutoeq => [("autoeq", .vBool true)]
  | .enhanceWithAi => [("sound_studio", .vBool true)]
  | .transcribeAudio => [("transcription", .vBool true)]
  | .summarizeAudio => [("transcription", .vBool true), ("summarize", .vBool true)]
  | .createSocialContent =>
      [("transcription", .vBool true), ("summarize", .vBool true),
       ("social_content", .vBool true)]
  | .enhanceAudioComprehensive =>
      [("long_silences", .vBool true), ("stutters", .vBool true),
       ("fillers", .vBool true), ("mouth_sounds", .vBool true),
       ("hesitations", .vBool true), ("remove_noise", .vBool true),
       ("breath", .vBool true), ("normalize", .vBool true),
       ("target_lufs", .vInt (-16)), ("sound_studio", .vBool true),
       ("export_format", .vStr "mp3"), ("transcription", .vBool false),
       ("summarize", .vBool false), ("social_content", .vBool false),
       ("export_timestamps", .vBool false)]

/-- Running a fixed-default operation: `config = \x7bdefaults...,
**additional_config\x7d; return self.process_audio(files, config)`. -/
def runOp (op : Op) (files : FilesArg) (additional_config : Config) : Payload :=
  process_audio files (some (opDefaults op ++ additional_config))

/-- `AudioProcessor.set_mute_lufs` (audio_processor.py:181-192): rejects
`mute_lufs > 0`, otherwise posts `\x7bmute_lufs, **additional\x7d`. -/
def set_mute_lufs (files : FilesArg) (mute_lufs : Int) (additional_config : Config) :
    Except ApiError Payload :=
  if mute_lufs > 0 then
    .error (.invalidParameter "mute_lufs must be a negative integer")
  else
    .ok (process_audio files (some ([("mute_lufs", Value.vInt mute_lufs)] ++ additional_config)))

/-- `AudioProcessor.set_target_lufs` (audio_processor.py:194-205): rejects
`target_lufs >= 0`, otherwise posts `\x7btarget_lufs, **additional\x7d`. -/
def set_target_lufs (files : FilesArg) (target_lufs : Int) (additional_config : Config) :
    Except ApiError Payload :=
  if target_lufs >= 0 then
    .error (.invalidParameter "target_lufs must be less than 0")
  else
    .ok (process_audio files (some ([("target_lufs", Value.vInt target_lufs)] ++ additional_config)))

/-- `AudioProcessor.merge_tracks` (audio_processor.py:254-266): rejects
fewer than two file URLs before any network call, otherwise posts
`\x7bmerge: True, normalize, **additional\x7d`. -/
def merge_tracks (files : List String) (normalize : Bool) (additional_config : Config) :
    Except ApiError Payload :=
  if files.length < 2 then
    .error (.invalidParameter "merge_tracks requires a list of at least 2 file URLs")
  else
    .ok (process_audio (.many files)
      (some ([("merge", Value.vBool true), ("normalize", Value.vBool normalize)]
        ++ additional_config)))

theorem cfgGet_append (d a : Config) (key : String) :
    cfgGet (d ++ a) key =
      match cfgGet a key with
      | some w => some w
      | none => cfgGet d key := by
  induction d with
  | nil =>
    simp only [List.nil_append, cfgGet]
    cases cfgGet a key <;> rfl
  | cons p rest ih =>
    obtain ⟨k, v⟩ := p
    have hstep : cfgGet (((k, v) :: rest) ++ a) key =
        match cfgGet (rest ++ a) key with
        | some w => some w
        | none => if k = key then some v else none := rfl
    have hstep2 : cfgGet ((k, v) :: rest) key =
        match cfgGet rest key with
        | some w => some w
        | none => if k = key then some v else none := rfl
    rw [hstep, ih, hstep2]
    cases cfgGet a key <;> cases cfgGet rest key <;> rfl

/-- A job representation as returned by `GET /edits/\x7bid\x7d`: the
`status` string field plus the rest of the body, kept opaque. -/
structure Job where
  status : String
  body : String
deriving DecidableEq, Repr

/-- Outcome of `wait_for_completion`: return the full job representation on
`SUCCESS`, raise `Edit job failed` on `FAILURE`, raise `Edit job timed out`
when the deadline elapses. -/
inductive PollOutcome where
  | success (job : Job)
  | jobFailed
  | jobTimeout
deriving DecidableEq, Repr

/-- The polling loop of `wait_for_completion` (audio_processor.py:330-343),
over a status oracle indexed by query number. Time is modelled as advancing
only during `time.sleep(poll_interval)`, so the n-th query happens at
elapsed time `n * interval` and the loop guard `elapsed < max_wait` is
checked before each query. The second component counts queries issued;
`none` models non-termination (interval 0 with a never-terminal status),
which cannot occur once the fuel covers `max_wait / interval` guards. -/
def pollAux (oracle : Nat → Job) (interval max_wait : Nat) :
    Nat → Nat → Option (PollOutcome × Nat)
  | 0, _ => none
  | fuel + 1, n =>
    if n * interval < max_wait then
      let job := oracle n
      if job.status = "SUCCESS" then some (.success job, n + 1)
      else if job.status = "FAILURE" then some (.jobFailed, n + 1)
      else pollAux oracle interval max_wait fuel (n + 1)
    else some (.jobTimeout, n)

/-- `AudioProcessor.wait_for_completion` (audio_processor.py:318-343):
starts the loop at elapsed time 0 with fuel sufficient for every guard
check the loop can reach. -/
def wait_for_completion (oracle : Nat → Job) (poll_interval max_wait_time : Nat) :
    Option (PollOutcome × Nat) :=
  pollAux oracle poll_interval max_wait_time (max_wait_time / poll_interval + 2) 0

/-- A status oracle that never leaves `PENDING`. -/
def always_pending : Nat → Job := fun _ => { status := "PENDING", body := "" }

/-- The `SUCCESS` job representation used in the poller scenarios, carrying
its result body. -/
def success_job : Job := { status := "SUCCESS", body := "result-with-download-url" }

/-- A status oracle answering `PENDING, PENDING, SUCCESS, ...`. -/
def pending_pending_success : Nat → Job := fun n =>
  if n < 2 then { status := "PENDING", body := "" } else success_job

/-- A status oracle answering `PENDING, FAILURE, ...`. -/
def pending_then_failure : Nat → Job := fun n =>
  if n = 0 then { status := "PENDING", body := "" } else { status := "FAILURE", body := "" }

/-- Every query `pollAux` issues happens strictly before the deadline:
query `i` is only reached when `i * interval < max_wait`. -/
theorem pollAux_queries_before_deadline
    (oracle : Nat → Job) (interval max_wait : Nat) :
    ∀ (fuel n : Nat) (out : PollOutcome) (q : Nat),
      (∀ i, i < n → i * interval < max_wait) →
      pollAux oracle interval max_wait fuel n = some (out, q) →
      ∀ i, i < q → i * interval < max_wait := by
  intro fuel
  induction fuel with
  | zero => intro n out q _ h; simp [pollAux] at h
  | succ fuel ih =>
    intro n out q hinv h
    by_cases hg : n * interval < max_wait
    · rw [pollAux, if_pos hg] at h
      by_cases hs : (oracle n).status = "SUCCESS"
      · rw [if_pos hs] at h
        injection h with h1
        injection h1 with _ h2
        subst h2
        intro i hi
        rcases Nat.lt_succ_iff_lt_or_eq.mp hi with hlt | heq
        · exact hinv i hlt
        · subst heq; exact hg
      · rw [if_neg hs] at h
        by_cases hf : (oracle n).status = "FAILURE"
        · rw [if_pos hf] at h
          injection h with h1
          injection h1 with _ h2
          subst h2
          intro i hi
          rcases Nat.lt_succ_iff_lt_or_eq.mp hi with hlt | heq
          · exact hinv i hlt
          · subst heq; exact hg
        · rw [if_neg hf] at h
          refine ih (n + 1) out q ?_ h
          intro i hi
          rcases Nat.lt_succ_iff_lt_or_eq.mp hi with hlt | heq
          · exact hinv i hlt
          · subst heq; exact hg
    · rw [pollAux, if_neg hg] at h
      injection h with h1
      injection h1 with _ h2
      subst h2
      exact hinv

/-- `AudioProcessor.upload_file` (audio_processor.py:268-303), over the
observable behaviour of its two HTTP steps: `signed_url_step` is the
outcome of `POST /upload?filename=...` followed by extracting `signedUrl`
from the body, and `put_step` is the outcome of the `PUT` of the file's
bytes to the signed URL. Any step failure is wrapped into the single
`Failed to upload file` error carrying the failing step's message. -/
def upload_file (signed_url_step : Except String String) (file_data : List Nat)
    (put_step : String → List Nat → Except String Unit) : Except String String :=
  match signed_url_step with
  | .error m => .error ("Failed to upload file: " ++ m)
  | .ok signedUrl =>
    match put_step signedUrl file_data with
    | .error m => .error ("Failed to upload file: " ++ m)
    | .ok _ => .ok signedUrl

/-- A byte transfer that succeeds. -/
def put_step_ok : String → List Nat → Except String Unit := fun _ _ => .ok ()

/-- A byte transfer that fails with a server message. -/
def put_step_fail : String → List Nat → Except String Unit := fun _ _ =>
  .error "transfer refused"

/-- The fixed list of supported audio extensions, in the priority order the
driver tries them (interactive_audio_processor.py:121). -/
def supported_extensions : List String := [".mp3", ".wav", ".m4a", ".flac", ".aac"]

/-- Whether a filename begins with a dot (a hidden file, which `glob`
never matches with a pattern whose first character is `*`). -/
def starts_with_dot (fname : String) : Bool :=
  match fname.data with
  | [] => false
  | c :: _ => c == '.'

/-- Whether a filename is matched by the glob pattern `*ext`: `*` matches
any (possibly empty) character sequence, so the name must end with `ext`,
and glob does not match hidden files with a `*`-headed pattern. -/
def glob_matches (ext fname : String) : Bool :=
  List.isSuffixOf ext.data fname.data && !starts_with_dot fname

/-- `glob.glob(f"*\x7bext\x7d")` over a directory listing in OS order:
the matching filenames, in directory order. -/
def glob_files (dir : List String) (ext : String) : List String :=
  dir.filter (fun f => glob_matches ext f)

/-- The extension loop of `find_audio_file`
(interactive_audio_processor.py:123-131): first extension with any match
wins, and the first matching file (`files[0]`) is returned. -/
def find_audio_file_aux (dir : List String) : List String → Option String
  | [] => none
  | ext :: rest =>
    match glob_files dir ext with
    | [] => find_audio_file_aux dir rest
    | f :: _ => some f

/-- `InteractiveAudioProcessor.find_audio_file`
(interactive_audio_processor.py:119-131). -/
def find_audio_file (dir : List String) : Option String :=
  find_audio_file_aux dir supported_extensions

/-- The first observable step of `process_audio_file` after command lookup
(interactive_audio_processor.py:171-182): report an error when no file is
found, otherwise proceed to upload the found file. -/
inductive DriverStep where
  | reportNoFile
  | uploadFile (path : String)
deriving DecidableEq, Repr

/-- The discovery-then-upload decision of `process_audio_file`. -/
def process_audio_file_start (dir : List String) : DriverStep :=
  match find_audio_file dir with
  | none => .reportNoFile
  | some f => .uploadFile f

/-- The hard-coded default passed to `os.getenv`
(interactive_audio_processor.py:286). -/
def default_api_key : String := "FJB8s8nbmY9UQcfeXFeB6tqJmjwDUkKN"

/-- `os.getenv(name, default)`: the variable's value when it is set (even
when set to the empty string), the default otherwise. -/
def getenv_with_default (env_value : Option String) (dflt : String) : String :=
  match env_value with
  | some s => s
  | none => dflt

/-- The API key computed by `main` (interactive_audio_processor.py:286),
as a function of the state of the `CLEANVOICE_API_KEY` variable. -/
def main_api_key (env_value : Option String) : String :=
  getenv_with_default env_value default_api_key

/-- What `main` does at startup (interactive_audio_processor.py:283-294). -/
inductive StartupOutcome where
  | exitMissingKey
  | proceed (api_key : String)
deriving DecidableEq, Repr

/-- The startup branch of `main`: `if not api_key` is true for a string
exactly when it is empty. -/
def main_startup (env_value : Option String) : StartupOutcome :=
  let api_key := main_api_key env_value
  if api_key = "" then .exitMissingKey else .proceed api_key

/-- C9: for every input to `process_audio`, the payload's `input.files`
field is always a list — a single string file reference is wrapped into a
one-element list, a list is passed through unchanged — and an omitted
configuration is sent as an empty mapping. -/
theorem claim_C9_payload_shape :
    ∀ (s : String) (l : List String) (c : Option Config),
      (process_audio (.single s) c).files = [s] ∧
      (process_audio (.many l) c).files = l ∧
      (process_audio (.single s) none).config = [] ∧
      (process_audio (.many l) none).config = [] := by
  intro s l c
  exact ⟨rfl, rfl, rfl, rfl⟩

/-- C2: for every supported operation and caller-supplied
additional-configuration mapping, the configuration sent to job creation
holds the caller's value for every key the caller supplied, and the
operation's fixed default for every key the caller did not supply; in
particular `remove_silences(url, \x7b"long_silences": False\x7d)` yields
`long_silences == False`. -/
theorem claim_C2_caller_overrides_defaults :
    (∀ (op : Op) (files : FilesArg) (add : Config) (key : String) (v : Value),
        cfgGet add key = some v → cfgGet (runOp op files add).config key = some v) ∧
    (∀ (op : Op) (files : FilesArg) (add : Config) (key : String),
        cfgGet add key = none →
          cfgGet (runOp op files add).config key = cfgGet (opDefaults op) key) ∧
    cfgGet (runOp Op.removeSilences (FilesArg.single "url")
        [("long_silences", Value.vBool false)]).config "long_silences" =
      some (Value.vBool false) := by
  refine ⟨?_, ?_, by decide⟩
  · intro op files add key v h
    have hc : (runOp op files add).config = opDefaults op ++ add := rfl
    rw [hc, cfgGet_append, h]
  · intro op files add key h
    have hc : (runOp op files add).config = opDefaults op ++ add := rfl
    rw [hc, cfgGet_append, h]

theorem claim_C2_witness :
    cfgGet (runOp Op.removeSilences (FilesArg.single "u")
        [("long_silences", Value.vBool false)]).config "long_silences" =
      some (Value.vBool false) :=
  claim_C2_caller_overrides_defaults.1 Op.removeSilences (FilesArg.single "u")
    [("long_silences", Value.vBool false)] "long_silences" (Value.vBool false) (by decide)

/-- C1: the claim says both `set_mute_lufs` and `set_target_lufs` fail for
every value ≥ 0, with exactly 0 failing. The code diverges for
`set_mute_lufs` at 0: its guard is `mute_lufs > 0`, so 0 passes validation
and a job is created with `mute_lufs = 0`, contradicting the code's own
error message (`mute_lufs must be a negative integer`). `set_target_lufs`
behaves as claimed (0 fails, -1 succeeds). -/
theorem claim_C1_boundary_evaluation :
    set_mute_lufs (FilesArg.single "f.mp3") 0 [] =
      .ok { files := ["f.mp3"], config := [("mute_lufs", Value.vInt 0)] } ∧
    set_target_lufs (FilesArg.single "f.mp3") 0 [] =
      .error (.invalidParameter "target_lufs must be less than 0") ∧
    set_mute_lufs (FilesArg.single "f.mp3") (-1) [] =
      .ok { files := ["f.mp3"], config := [("mute_lufs", Value.vInt (-1))] } ∧
    set_target_lufs (FilesArg.single "f.mp3") (-1) [] =
      .ok { files := ["f.mp3"], config := [("target_lufs", Value.vInt (-1))] } := by
  exact ⟨rfl, rfl, rfl, rfl⟩

/-- C7: `merge_tracks` fails with `InvalidParameter` for every list of
fewer than two file references, before any request payload is built, and
for every list of two or more it builds a payload whose configuration has
`merge` set and proceeds to job creation. -/
theorem claim_C7_merge_validation :
    ∀ (files : List String) (normalize : Bool) (add : Config),
      (files.length < 2 →
        merge_tracks files normalize add =
          .error (.invalidParameter "merge_tracks requires a list of at least 2 file URLs")) ∧
      (2 ≤ files.length →
        ∃ p, merge_tracks files normalize add = .ok p ∧ p.files = files ∧
          (cfgGet p.config "merge").isSome = true) := by
  intro files normalize add
  constructor
  · intro h
    simp only [merge_tracks, if_pos h]
  · intro h
    have hn : ¬ files.length < 2 := Nat.not_lt.mpr h
    refine ⟨process_audio (.many files)
      (some ([("merge", Value.vBool true), ("normalize", Value.vBool normalize)] ++ add)),
      ?_, rfl, ?_⟩
    · simp only [merge_tracks, if_neg hn]
    · have hc : (process_audio (.many files)
          (some ([("merge", Value.vBool true), ("normalize", Value.vBool normalize)]
            ++ add))).config =
          [("merge", Value.vBool true), ("normalize", Value.vBool normalize)] ++ add := rfl
      rw [hc, cfgGet_append]
      cases cfgGet add "merge" <;> rfl

theorem claim_C7_witness :
    merge_tracks ["a"] true [] =
      .error (.invalidParameter "merge_tracks requires a list of at least 2 file URLs") ∧
    ∃ p, merge_tracks ["a", "b"] true [] = .ok p ∧ p.files = ["a", "b"] ∧
      (cfgGet p.config "merge").isSome = true :=
  ⟨(claim_C7_merge_validation ["a"] true []).1 (by decide),
   (claim_C7_merge_validation ["a", "b"] true []).2 (by decide)⟩

/-- C6: when the signed-URL request succeeds and the byte transfer
succeeds, `upload_file` returns exactly the signed URL received from the
signed-URL step; when the byte transfer fails, it fails with the upload
error carrying the failing step's message and never returns the signed
URL (or any other value) to the caller. -/
theorem claim_C6_upload_handshake :
    ∀ (su : String) (file_data : List Nat)
      (put_step : String → List Nat → Except String Unit),
      (put_step su file_data = .ok () →
        upload_file (.ok su) file_data put_step = .ok su) ∧
      (∀ m, put_step su file_data = .error m →
        upload_file (.ok su) file_data put_step = .error ("Failed to upload file: " ++ m) ∧
        ∀ r, upload_file (.ok su) file_data put_step ≠ .ok r) := by
  intro su fd ps
  constructor
  · intro h
    simp only [upload_file, h]
  · intro m h
    constructor
    · simp only [upload_file, h]
    · intro r hr
      simp only [upload_file, h] at hr
      exact Except.noConfusion hr

theorem claim_C6_witness :
    upload_file (.ok "signed-url") [1, 2] put_step_ok = .ok "signed-url" ∧
    upload_file (.ok "signed-url") [1, 2] put_step_fail =
      .error ("Failed to upload file: " ++ "transfer refused") :=
  ⟨(claim_C6_upload_handshake "signed-url" [1, 2] put_step_ok).1 rfl,
   ((claim_C6_upload_handshake "signed-url" [1, 2] put_step_fail).2 "transfer refused" rfl).1⟩

/-- C3: the completion poller never issues a status query at or after the
deadline — every issued query `i` happens at elapsed time
`i * interval < max_wait` — and with a 10-second deadline, a 5-second
interval and a status that never leaves `PENDING`, it fails with
`JobTimeout` after exactly 2 queries, never issuing a third. -/
theorem claim_C3_no_query_at_deadline :
    (∀ (interval max_wait : Nat) (oracle : Nat → Job) (out : PollOutcome) (q : Nat),
        wait_for_completion oracle interval max_wait = some (out, q) →
        ∀ i, i < q → i * interval < max_wait) ∧
    wait_for_completion always_pending 5000 10000 = some (.jobTimeout, 2) := by
  constructor
  · intro interval max_wait oracle out q h
    exact pollAux_queries_before_deadline oracle interval max_wait _ 0 out q
      (fun i hi => absurd hi (Nat.not_lt_zero i)) h
  · decide

theorem claim_C3_witness : 1 * 5000 < 10000 :=
  claim_C3_no_query_at_deadline.1 5000 10000 always_pending PollOutcome.jobTimeout 2
    (by decide) 1 (by decide)

/-- C4: for a status oracle answering `PENDING, PENDING, SUCCESS` at a
5-second interval within the default 300-second deadline,
`wait_for_completion` returns the full `SUCCESS` job payload after the
third query and issues no fourth query. -/
theorem claim_C4_success_after_third_query :
    wait_for_completion pending_pending_success 5000 300000 =
      some (.success success_job, 3) := by
  decide

/-- C5: for a status oracle answering `PENDING, FAILURE` within the
deadline, `wait_for_completion` fails with `JobFailed` immediately after
the second query, returning no payload and issuing no third query. -/
theorem claim_C5_failure_after_second_query :
    wait_for_completion pending_then_failure 5000 300000 =
      some (.jobFailed, 2) := by
  decide

/-- Any file returned by the extension loop is matched by one of the
extensions it was given, because it comes out of that extension's glob
filter. -/
theorem find_audio_file_aux_matches (dir : List String) :
    ∀ (exts : List String) (f : String),
      find_audio_file_aux dir exts = some f →
      ∃ ext, ext ∈ exts ∧ glob_matches ext f = true := by
  intro exts
  induction exts with
  | nil => intro f h; simp [find_audio_file_aux] at h
  | cons ext rest ih =>
    intro f h
    cases hg : glob_files dir ext with
    | nil =>
      rw [find_audio_file_aux, hg] at h
      obtain ⟨e, he, hm⟩ := ih f h
      exact ⟨e, List.mem_cons_of_mem _ he, hm⟩
    | cons g gs =>
      rw [find_audio_file_aux, hg] at h
      injection h with h1
      subst h1
      have hmem : g ∈ glob_files dir ext := by
        rw [hg]; exact List.mem_cons_self g gs
      have hp : glob_matches ext g = true := (List.mem_filter.mp hmem).2
      exact ⟨ext, List.mem_cons_self ext rest, hp⟩

/-- C8: the driver's file discovery tries extensions in the fixed priority
order `.mp3, .wav, .m4a, .flac, .aac`; whenever the `.mp3` pattern has any
match, the first `.mp3` match in directory order is chosen (so a directory
holding both a matching `.wav` file and a matching `.mp3` file yields a
`.mp3` file); every chosen file matches a supported extension; and when no
file matches any supported extension the driver reports the user-facing
error instead of uploading. -/
theorem claim_C8_file_discovery :
    supported_extensions = [".mp3", ".wav", ".m4a", ".flac", ".aac"] ∧
    (∀ dir, glob_files dir ".mp3" ≠ [] →
      find_audio_file dir = (glob_files dir ".mp3").head?) ∧
    (∀ dir f, find_audio_file dir = some f →
      ∃ ext, ext ∈ supported_extensions ∧ glob_matches ext f = true) ∧
    (∀ dir, find_audio_file dir = none →
      process_audio_file_start dir = .reportNoFile) := by
  refine ⟨rfl, ?_, ?_, ?_⟩
  · intro dir h
    cases hg : glob_files dir ".mp3" with
    | nil => exact absurd hg h
    | cons f fs =>
      show find_audio_file_aux dir (".mp3" :: [".wav", ".m4a", ".flac", ".aac"]) = _
      rw [find_audio_file_aux, hg]
      rfl
  · intro dir f h
    exact find_audio_file_aux_matches dir supported_extensions f h
  · intro dir h
    unfold process_audio_file_start
    rw [h]

theorem claim_C8_witness :
    find_audio_file ["song.wav", "track.mp3"] = some "track.mp3" ∧
    process_audio_file_start ["readme.txt"] = DriverStep.reportNoFile :=
  ⟨(claim_C8_file_discovery.2.1 ["song.wav", "track.mp3"] (by decide)).trans (by decide),
   claim_C8_file_discovery.2.2.2 ["readme.txt"] (by decide)⟩

/-- C10 counterexample: the claim says the missing-API-key branch is
unreachable regardless of whether the environment variable is set, but
`os.getenv` returns the variable's value even when it is set to the empty
string, so with `CLEANVOICE_API_KEY` set to `""` the key is falsy and the
branch is taken. -/
theorem claim_C10_counterexample_env_empty :
    main_startup (some "") = StartupOutcome.exitMissingKey := by
  decide

/-- C10 (amended): the missing-API-key branch is unreachable when the
environment variable is unset (the non-empty hard-coded default applies)
or set to a non-empty string; it is reachable exactly when the variable is
set to the empty string. -/
theorem claim_C10_amended_branch_reachability :
    ∀ (env_value : Option String),
      (∀ s, env_value = some s → s ≠ "") →
      main_startup env_value = StartupOutcome.proceed (main_api_key env_value) ∧
      main_api_key env_value ≠ "" := by
  intro env h
  cases env with
  | none => exact ⟨by decide, by decide⟩
  | some s =>
    have hs : s ≠ "" := h s rfl
    constructor
    · show (if s = "" then StartupOutcome.exitMissingKey else StartupOutcome.proceed s) =
        StartupOutcome.proceed s
      rw [if_neg hs]
    · exact hs

theorem claim_C10_witness :
    main_startup none = StartupOutcome.proceed (main_api_key none) ∧
    main_api_key none ≠ "" :=
  claim_C10_amended_branch_reachability none (fun _ h => Option.noConfusion h)
